import Mathlib

/-!
Shallow embedding of `src/drone-intro-final-project/src/mav.py` (class `Mav`):
a MAVROS offboard-control facade with a throttled arm/mode state machine, a
distance-limited setpoint generator and an arrival predicate.

Conventions of the embedding:
* Python floats are modelled as real numbers (`ℝ`); ROS times and durations as
  rationals (`ℚ`), so that the throttling logic stays decidable.
* Side effects (service calls, publishes) are made explicit: a handler returns
  the updated `Mav` record together with the list of requests or messages it
  issued, in issue order.  The results of the `set_mode` / `set_arming`
  service calls are supplied by the environment as `Bool` parameters; the
  source ignores the former entirely and uses the latter only for a print,
  which the embedding reflects by not letting them influence the state.
* One invocation of a callback is atomic and happens at a single time `now`
  (the source calls `rospy.Time.now()` several times inside one handler; all
  occurrences are identified).
-/

namespace DroneMav

/-- ROS `geometry_msgs/Point`: a 3D position. -/
structure Point where
  x : ℝ
  y : ℝ
  z : ℝ

/-- ROS `geometry_msgs/Vector3`: a 3D vector (used for linear and angular
velocity). -/
structure Vector3 where
  x : ℝ
  y : ℝ
  z : ℝ

/-- Modelled from the spec: the repository's `message_tools` module (imported
by `mav.py` but not under `src/`) converts between quaternion orientations and
yaw angles, and the spec's data model (§3) allows the orientation to be "a
unit quaternion or equivalent yaw angle"; §4.1 requires
`yawToOrientation(orientationToYaw(q))` to preserve the yaw.  The embedding
therefore represents an orientation by its yaw angle. -/
def Orientation : Type := ℝ

/-- Modelled from the spec: `message_tools.orientation_to_yaw` extracts the
yaw from an orientation (§4.1 `orientationToYaw`).  With orientations
represented by their yaw this is the identity. -/
def orientation_to_yaw (o : Orientation) : ℝ := o

/-- Modelled from the spec: §4.1 `yawToOrientation`, the inverse of
`orientationToYaw` producing a zero roll/pitch orientation. -/
def yaw_to_orientation (yaw : ℝ) : Orientation := yaw

/-- ROS `geometry_msgs/PoseStamped`, reduced to the fields `mav.py` reads:
`pose.position` and `pose.orientation`. -/
structure PoseStamped where
  position : Point
  orientation : Orientation

/-- ROS `geometry_msgs/TwistStamped`, reduced to `twist.linear` and
`twist.angular`. -/
structure TwistStamped where
  linear : Vector3
  angular : Vector3

/-- `mavros_msgs/State`: the vehicle-state message, restricted to the four
fields `_state_callback` copies. -/
structure UAVState where
  armed : Bool
  connected : Bool
  mode : String
  guided : Bool
deriving DecidableEq

/-- A default-constructed `PoseStamped()` : all position coordinates zero and
the default orientation (yaw 0). -/
def PoseStamped.zero : PoseStamped :=
  { position := { x := 0, y := 0, z := 0 }, orientation := (0 : ℝ) }

/-- A default-constructed `TwistStamped()`. -/
def TwistStamped.zero : TwistStamped :=
  { linear := { x := 0, y := 0, z := 0 }, angular := { x := 0, y := 0, z := 0 } }

/-- A default-constructed `mavros_msgs.msg.State()`. -/
def UAVState.zero : UAVState :=
  { armed := false, connected := false, mode := "", guided := false }

/-- The mutable fields of the `Mav` object (`Mav.__init__`). -/
structure Mav where
  current_pose : PoseStamped
  current_velocity : TwistStamped
  target_pose : PoseStamped
  UAV_state : UAVState
  last_request : ℚ
  max_speed : ℝ
  fly : Bool

/-- An outbound side effect on one of the service channels: a
`set_mode(base_mode, custom_mode)` call, a `set_arming(value)` call, or a
`set_command(command, param1)` call. -/
inductive Request where
  | setMode (base : ℕ) (custom : String)
  | arm (value : Bool)
  | command (cmd : ℕ) (param1 : ℚ)
deriving DecidableEq

/-- Bool test: is this request a mode change (`set_mode` call)? -/
def Request.isModeChange : Request → Bool
  | .setMode _ _ => true
  | _ => false

/-- Bool test: is this request an arming request (`set_arming` call)? -/
def Request.isArm : Request → Bool
  | .arm _ => true
  | _ => false

/-- `Mav._autoland`: once the 1-second throttle window has elapsed, request
mode `AUTO.LAND` whenever the current mode differs, and record the request
time in `last_request`.  The source ignores the result of the `set_mode`
call, so the environment's response does not appear. -/
def autoland (now : ℚ) (m : Mav) : Mav × List Request :=
  if now - m.last_request > 1 then
    if m.UAV_state.mode ≠ "AUTO.LAND" then
      ({ m with last_request := now }, [Request.setMode 0 "AUTO.LAND"])
    else (m, [])
  else (m, [])

/-- `Mav._arm_and_offboard`: once the 1-second throttle window has elapsed,
request mode `OFFBOARD` if the current mode differs, then request arming if
the vehicle is not armed; each issued request sets `last_request := now`.
`armResult` is the environment's response to `set_arming`; the source only
prints on success, so the response influences neither the state nor the
issued requests. -/
def arm_and_offboard (now : ℚ) (armResult : Bool) (m : Mav) : Mav × List Request :=
  if now - m.last_request > 1 then
    let step1 : Mav × List Request :=
      if m.UAV_state.mode ≠ "OFFBOARD" then
        ({ m with last_request := now }, [Request.setMode 0 "OFFBOARD"])
      else (m, [])
    let m1 := step1.1
    if m1.UAV_state.armed = false then
      let _ := armResult   -- `if self.set_arming(True): print("Vehicle armed")`
      ({ m1 with last_request := now }, step1.2 ++ [Request.arm true])
    else (m1, step1.2)
  else (m, [])

/-- `Mav._set_states`: dispatch on the flight intent `fly`. -/
def set_states (now : ℚ) (armResult : Bool) (m : Mav) : Mav × List Request :=
  if m.fly then
    arm_and_offboard now armResult m
  else
    autoland now m

/-- One incoming vehicle-state message together with the time at which the
callback runs and the environment's response to a possible `set_arming`
call. -/
structure StateEvent where
  time : ℚ
  armResult : Bool
  topic : UAVState
deriving DecidableEq

/-- `Mav._state_callback`: copy the four state fields from the topic, then run
`_set_states`. -/
def state_callback (e : StateEvent) (m : Mav) : Mav × List Request :=
  let m1 := { m with
    UAV_state := { armed := e.topic.armed, connected := e.topic.connected,
                   mode := e.topic.mode, guided := e.topic.guided } }
  set_states e.time e.armResult m1

/-- Run a sequence of vehicle-state updates, collecting every issued request
tagged with the time of the invocation that issued it. -/
def run (m : Mav) : List StateEvent → Mav × List (ℚ × Request)
  | [] => (m, [])
  | e :: es =>
    let step := state_callback e m
    let rest := run step.1 es
    (rest.1, step.2.map (fun r => (e.time, r)) ++ rest.2)

/-- `Mav.deploy_parachute`: issue the single `set_command(command=185,
param1=1)` call; no field of the object is touched. -/
def deploy_parachute (m : Mav) : Mav × List Request :=
  (m, [Request.command 185 1])

/-- A 3-element numpy array, as produced by `point_to_arr`; numpy's
elementwise arithmetic is the `Prod` instances. -/
abbrev Vec3 : Type := ℝ × ℝ × ℝ

/-- Modelled from the spec: `message_tools.point_to_arr`, the lossless
conversion from a named-field point to a 3-element numeric vector (§4.1
`pointToVec3`). -/
def point_to_arr (p : Point) : Vec3 := (p.x, p.y, p.z)

/-- Modelled from the spec: `message_tools.arr_to_point`, the inverse
conversion (§4.1 `vec3ToPoint`). -/
def arr_to_point (a : Vec3) : Point := { x := a.1, y := a.2.1, z := a.2.2 }

/-- `np.linalg.norm` on a 3-vector: the Euclidean norm. -/
noncomputable def npNorm (v : Vec3) : ℝ :=
  Real.sqrt (v.1 * v.1 + v.2.1 * v.2.1 + v.2.2 * v.2.2)

/-- Componentwise division of a numpy 3-vector by a scalar (`diff / ratio` in
the source). -/
noncomputable def vdiv (v : Vec3) (s : ℝ) : Vec3 := (v.1 / s, v.2.1 / s, v.2.2 / s)

/-- Modelled from the spec: `message_tools.create_setpoint_message_pos_ori`
builds a setpoint pose message carrying the given position and orientation. -/
def create_setpoint_message_pos_ori (p : Point) (o : Orientation) : PoseStamped :=
  { position := p, orientation := o }

/-- Modelled from the spec: `message_tools.create_setpoint_message_pos_yaw`
builds a setpoint pose message carrying the given position and the zero
roll/pitch orientation with the given yaw. -/
def create_setpoint_message_pos_yaw (p : Point) (yaw : ℝ) : PoseStamped :=
  { position := p, orientation := yaw_to_orientation yaw }

/-- `Mav.distance_limited_target`: clip the commanded displacement to a sphere
of radius `max_speed` around the current position.  The source divides `diff`
by `ratio = diffsize / max_dist`; the embedding inlines that scaling
factor. -/
noncomputable def distance_limited_target (m : Mav) : PoseStamped :=
  let point := m.target_pose.position
  let current := point_to_arr m.current_pose.position
  let target_arr := point_to_arr point
  let diff := target_arr - current
  let diffsize := npNorm diff
  let max_dist := m.max_speed
  if diffsize < max_dist then
    m.target_pose
  else
    let true_target := current + vdiv diff (diffsize / max_dist)
    create_setpoint_message_pos_ori (arr_to_point true_target) m.target_pose.orientation

/-- `Mav.get_pos_error`: Euclidean distance between the target and current
positions. -/
noncomputable def get_pos_error (m : Mav) : ℝ :=
  let sp := m.target_pose.position
  let cp := m.current_pose.position
  let x := sp.x - cp.x
  let y := sp.y - cp.y
  let z := sp.z - cp.z
  Real.sqrt (x * x + y * y + z * z)

/-- `Mav.get_yaw_error`: absolute difference of the extracted yaw angles (no
wraparound handling). -/
noncomputable def get_yaw_error (m : Mav) : ℝ :=
  let sy := orientation_to_yaw m.target_pose.orientation
  let cy := orientation_to_yaw m.current_pose.orientation
  |sy - cy|

/-- `Mav.get_velocity_abs`: Euclidean norm of the linear velocity. -/
noncomputable def get_velocity_abs (m : Mav) : ℝ :=
  let vel := m.current_velocity.linear
  Real.sqrt (vel.x * vel.x + vel.y * vel.y + vel.z * vel.z)

/-- `Mav.get_ang_vel_abs`: Euclidean norm of the angular velocity. -/
noncomputable def get_ang_vel_abs (m : Mav) : ℝ :=
  let vel := m.current_velocity.angular
  Real.sqrt (vel.x * vel.x + vel.y * vel.y + vel.z * vel.z)

/-- `Mav.has_arrived`: all four tolerance checks pass simultaneously. -/
def has_arrived (m : Mav) : Prop :=
  let maxdist : ℝ := 0.5
  let maxang : ℝ := 0.1
  let max_vel : ℝ := 0.2
  let max_angvel : ℝ := 0.05
  let posgood := get_pos_error m < maxdist
  let anggood := get_yaw_error m < maxang
  let velgood := get_velocity_abs m < max_vel
  let angvelgood := get_ang_vel_abs m < max_angvel
  if posgood ∧ anggood ∧ velgood ∧ angvelgood then True else False

/-- `Mav.set_target_pose`: overwrite the stored target pose.  The source
method only assigns the field; the empty list records that no setpoint is
published and no request issued. -/
def set_target_pose (pose : PoseStamped) (m : Mav) : Mav × List PoseStamped :=
  ({ m with target_pose := pose }, [])

/-- `Mav.set_target_pos`: replace the target position, keeping the yaw
extracted from the previous target orientation. -/
def set_target_pos (pos : Point) (m : Mav) : Mav × List PoseStamped :=
  let yaw := orientation_to_yaw m.target_pose.orientation
  let pose := create_setpoint_message_pos_yaw pos yaw
  set_target_pose pose m

/-- `Mav.set_target_yaw`: replace the target yaw, keeping the previous target
position. -/
def set_target_yaw (yaw : ℝ) (m : Mav) : Mav × List PoseStamped :=
  let pos := m.target_pose.position
  let pose := create_setpoint_message_pos_yaw pos yaw
  set_target_pose pose m

/-- `Mav._local_position_callback` followed by `_publish_target_pose`: store
the incoming pose, then publish the distance-limited target. -/
noncomputable def local_position_callback (topic : PoseStamped) (m : Mav) :
    Mav × List PoseStamped :=
  let m1 := { m with current_pose := topic }
  (m1, [distance_limited_target m1])

/-- `Mav._local_velocity_callback`: store the incoming velocity. -/
def local_velocity_callback (topic : TwistStamped) (m : Mav) : Mav :=
  { m with current_velocity := topic }

/-- `Mav.__init__` at time `t0`: build the initial state (`fly = True`,
`max_speed = 1`, default messages) and, immediately after the setpoint
publisher is set up, publish the current `target_pose` once per iteration of
`for i in range(0, 100)`.  The returned list holds the published burst in
order; services and subscribers produce no messages at setup. -/
def Mav.init (t0 : ℚ) (ns : String) : Mav × List PoseStamped :=
  let _ := ns   -- `mavros.set_namespace(namespace)`
  let m : Mav :=
    { current_pose := PoseStamped.zero
      current_velocity := TwistStamped.zero
      target_pose := PoseStamped.zero
      UAV_state := UAVState.zero
      last_request := t0
      max_speed := 1
      fly := true }
  (m, (List.range 100).map (fun _ => m.target_pose))

/-- `Mav.land`: clear the flight intent. -/
def land (m : Mav) : Mav := { m with fly := false }

/-- `Mav.takeoff`: set the flight intent. -/
def takeoff (m : Mav) : Mav := { m with fly := true }

/-! Concrete states and events used to instantiate the theorems below. -/

/-- The controller state right after `Mav.__init__` at time 0. -/
def mav0 : Mav := (Mav.init 0 "mavros").1

/-- A vehicle-state message: connected, in `POSCTL` mode, not armed. -/
def posctlTopic : UAVState :=
  { armed := false, connected := true, mode := "POSCTL", guided := false }

/-- A vehicle-state message: connected, already in `OFFBOARD` mode, not
armed. -/
def offboardTopic : UAVState :=
  { armed := false, connected := true, mode := "OFFBOARD", guided := false }

/-- A state update at time 2 whose arming request (if any) succeeds. -/
def event0 : StateEvent := { time := 2, armResult := true, topic := posctlTopic }

/-- A state update at time 2, in `OFFBOARD` mode, whose arming request (if
any) fails. -/
def failedArmEvent : StateEvent :=
  { time := 2, armResult := false, topic := offboardTopic }

/-- Case analysis of one `_state_callback` invocation: either no request is
issued and `last_request` is untouched, or the issued batch is one of the four
possible request lists, `last_request` is set to the invocation time, and the
1-second window had elapsed. -/
theorem state_callback_cases (e : StateEvent) (m : Mav) :
    ((state_callback e m).2 = [] ∧
      (state_callback e m).1.last_request = m.last_request) ∨
    (((state_callback e m).2 = [Request.setMode 0 "AUTO.LAND"] ∨
      (state_callback e m).2 = [Request.setMode 0 "OFFBOARD"] ∨
      (state_callback e m).2 = [Request.arm true] ∨
      (state_callback e m).2 = [Request.setMode 0 "OFFBOARD", Request.arm true]) ∧
      (state_callback e m).1.last_request = e.time ∧
      e.time - m.last_request > 1) := by
  unfold state_callback set_states arm_and_offboard autoland
  dsimp only
  by_cases hfly : m.fly
  · by_cases hwin : e.time - m.last_request > 1
    · by_cases hmode : e.topic.mode ≠ "OFFBOARD"
      · by_cases harmed : e.topic.armed = false
        · simp [hfly, hwin, hmode, harmed]
        · simp [hfly, hwin, hmode, harmed]
      · by_cases harmed : e.topic.armed = false
        · simp [hfly, hwin, hmode, harmed]
        · simp [hfly, hwin, hmode, harmed]
    · simp [hfly, hwin]
  · by_cases hwin : e.time - m.last_request > 1
    · by_cases hmode : e.topic.mode ≠ "AUTO.LAND"
      · simp [hfly, hwin, hmode]
      · simp [hfly, hwin, hmode]
    · simp [hfly, hwin]

/-- Separation of two timestamped requests under the 1-second throttle: if
both are mode-change requests, or both arm requests, the later one is issued
more than one second after the earlier one. -/
def windowSeparated (a b : ℚ × Request) : Prop :=
  (a.2.isModeChange = true ∧ b.2.isModeChange = true → b.1 - a.1 > 1) ∧
  (a.2.isArm = true ∧ b.2.isArm = true → b.1 - a.1 > 1)

/-- One step of `run`. -/
theorem run_cons (m : Mav) (e : StateEvent) (es : List StateEvent) :
    run m (e :: es)
      = ((run (state_callback e m).1 es).1,
         (state_callback e m).2.map (fun r => (e.time, r))
           ++ (run (state_callback e m).1 es).2) :=
  rfl

/-- Every request issued during a run comes more than one second after the
initial `last_request` timestamp: issuing is guarded by the elapsed window and
itself advances `last_request` to the issue time. -/
theorem run_requests_after_window (es : List StateEvent) :
    ∀ (m : Mav), ∀ p ∈ (run m es).2, p.1 - m.last_request > 1 := by
  induction es with
  | nil =>
    intro m p hp
    simp [run] at hp
  | cons e es ih =>
    intro m p hp
    rw [run_cons] at hp
    rcases List.mem_append.mp hp with hm | hm
    · rcases List.mem_map.mp hm with ⟨r, hr, rfl⟩
      rcases state_callback_cases e m with ⟨hnil, _⟩ | ⟨_, _, hwin⟩
      · rw [hnil] at hr
        cases hr
      · simpa using hwin
    · have hrec := ih (state_callback e m).1 p hm
      rcases state_callback_cases e m with ⟨_, hsame⟩ | ⟨_, hset, hwin⟩
      · rw [hsame] at hrec
        exact hrec
      · rw [hset] at hrec
        linarith
/-- The batch of one invocation is internally separated: it holds at most one
mode-change and at most one arm request, so the throttle relation holds
vacuously between its members. -/
theorem state_callback_pairwise (e : StateEvent) (m : Mav) :
    List.Pairwise windowSeparated
      ((state_callback e m).2.map (fun r => (e.time, r))) := by
  rcases state_callback_cases e m with ⟨hnil, _⟩ | ⟨hreq, _, _⟩
  · rw [hnil]
    exact List.Pairwise.nil
  · rcases hreq with h | h | h | h <;> rw [h] <;>
      simp [windowSeparated, Request.isModeChange, Request.isArm]

/-- Claim C3: across any sequence of vehicle-state updates, any two
mode-change requests, and any two arm requests, are issued more than one
second apart (times measured by the shared `last_request` throttle), so at
most one of each fits in any rolling 1-second window no matter how many
updates arrive. -/
theorem C3_throttle_window (m : Mav) (es : List StateEvent) :
    List.Pairwise windowSeparated (run m es).2 := by
  induction es generalizing m with
  | nil => exact List.Pairwise.nil
  | cons e es ih =>
    rw [run_cons, List.pairwise_append]
    refine ⟨state_callback_pairwise e m, ih _, ?_⟩
    intro a ha b hb
    rcases List.mem_map.mp ha with ⟨r, hr, rfl⟩
    rcases state_callback_cases e m with ⟨hnil, _⟩ | ⟨_, hset, _⟩
    · rw [hnil] at hr
      cases hr
    · have hgap := run_requests_after_window es (state_callback e m).1 b hb
      rw [hset] at hgap
      constructor
      · intro _
        simpa using hgap
      · intro _
        simpa using hgap

/-- Claim C4: while the fly flag is false, a state update never issues an arm
request and never requests `OFFBOARD`; the only possible request is a mode
change to `AUTO.LAND`, and only when the current mode differs from
`AUTO.LAND`. -/
theorem C4_flight_intent_false (e : StateEvent) (m : Mav) (hfly : m.fly = false) :
    ∀ r ∈ (state_callback e m).2,
      r = Request.setMode 0 "AUTO.LAND" ∧ e.topic.mode ≠ "AUTO.LAND" := by
  intro r hr
  unfold state_callback set_states autoland at hr
  dsimp only at hr
  rw [hfly] at hr
  simp only [Bool.false_eq_true, if_false] at hr
  by_cases hwin : e.time - m.last_request > 1
  · rw [if_pos hwin] at hr
    by_cases hmode : e.topic.mode ≠ "AUTO.LAND"
    · rw [if_pos hmode] at hr
      simp only [List.mem_singleton] at hr
      exact ⟨hr, hmode⟩
    · rw [if_neg hmode] at hr
      simp at hr
  · rw [if_neg hwin] at hr
    simp at hr

/-- Witness for C4: after `land`, the state update `event0` (mode `POSCTL`)
issues exactly the `AUTO.LAND` mode change. -/
theorem C4_witness :
    Request.setMode 0 "AUTO.LAND" = Request.setMode 0 "AUTO.LAND" ∧
      event0.topic.mode ≠ "AUTO.LAND" :=
  C4_flight_intent_false event0 (land mav0) rfl
    (Request.setMode 0 "AUTO.LAND")
    (by norm_num [state_callback, set_states, autoland, event0, posctlTopic,
      mav0, Mav.init, land]
        decide)

/-- Claim C9: with the fly flag true, the throttle window expired, the
reported mode different from `OFFBOARD` and the vehicle not armed, one
invocation issues the `OFFBOARD` mode change and then the arm request, in that
order, in the same invocation. -/
theorem C9_offboard_then_arm_same_invocation (e : StateEvent) (m : Mav)
    (hfly : m.fly = true)
    (hwin : e.time - m.last_request > 1)
    (hmode : e.topic.mode ≠ "OFFBOARD")
    (harmed : e.topic.armed = false) :
    (state_callback e m).2 = [Request.setMode 0 "OFFBOARD", Request.arm true] := by
  unfold state_callback set_states arm_and_offboard
  dsimp only
  rw [hfly]
  simp [hwin, hmode, harmed]

/-- Witness for C9: from the freshly initialized state, the update `event0`
issues the `OFFBOARD` mode change followed by the arm request. -/
theorem C9_witness :
    (state_callback event0 mav0).2
      = [Request.setMode 0 "OFFBOARD", Request.arm true] :=
  C9_offboard_then_arm_same_invocation event0 mav0 rfl
    (by norm_num [event0, mav0, Mav.init]) (by decide) rfl

/-- Counterexample to claim C5 as stated: from the initial state
(`last_request = 0`), the update `failedArmEvent` at time 2 issues exactly one
arm request, the environment reports failure (`armResult = false`), and the
throttle timestamp is nevertheless reset from 0 to 2. -/
theorem C5_counterexample :
    failedArmEvent.armResult = false ∧
    (state_callback failedArmEvent mav0).2 = [Request.arm true] ∧
    mav0.last_request = 0 ∧
    (state_callback failedArmEvent mav0).1.last_request = 2 := by
  refine ⟨rfl, ?_, rfl, ?_⟩ <;>
    norm_num [state_callback, set_states, arm_and_offboard, failedArmEvent,
      offboardTopic, mav0, Mav.init]

/-- Claim C5 as amended: `last_request` is reset by every request attempt,
successful or failed — whenever an invocation issues at least one request it
records the invocation time as the new throttle reference, and an invocation
that issues none leaves `last_request` unchanged. -/
theorem C5_last_request_reset_on_attempt (e : StateEvent) (m : Mav) :
    ((state_callback e m).2 ≠ [] →
      (state_callback e m).1.last_request = e.time) ∧
    ((state_callback e m).2 = [] →
      (state_callback e m).1.last_request = m.last_request) := by
  rcases state_callback_cases e m with ⟨hnil, hsame⟩ | ⟨hreq, hset, _⟩
  · exact ⟨fun h => absurd hnil h, fun _ => hsame⟩
  · refine ⟨fun _ => hset, fun h => ?_⟩
    rcases hreq with h1 | h1 | h1 | h1 <;> rw [h] at h1 <;> cases h1

/-- Witness for C5: the failed arm request of `C5_counterexample` indeed
resets the throttle reference to the invocation time. -/
theorem C5_witness :
    (state_callback failedArmEvent mav0).1.last_request = failedArmEvent.time :=
  (C5_last_request_reset_on_attempt failedArmEvent mav0).1
    (by norm_num [state_callback, set_states, arm_and_offboard, failedArmEvent,
      offboardTopic, mav0, Mav.init])

/-- Claim C6: initialization publishes a burst of exactly 100 identical
setpoints, each equal to the freshly constructed target pose, as its whole
publish output (any further emission is triggered by later callbacks). -/
theorem C6_init_burst (t0 : ℚ) (ns : String) :
    (Mav.init t0 ns).2 = List.replicate 100 (Mav.init t0 ns).1.target_pose ∧
    (Mav.init t0 ns).2.length = 100 := by
  constructor
  · unfold Mav.init
    simp [List.map_const]
  · unfold Mav.init
    simp

/-- Claim C7: `set_target_pos` replaces the target position and keeps the yaw
extracted from the previous target orientation; `set_target_yaw` replaces the
target yaw and keeps the previous target position; all three target mutators
leave every other field unchanged and publish no setpoint. -/
theorem C7_target_mutators (m : Mav) (p : Point) (y : ℝ) (pose : PoseStamped) :
    (set_target_pos p m).1.target_pose.position = p ∧
    orientation_to_yaw (set_target_pos p m).1.target_pose.orientation
      = orientation_to_yaw m.target_pose.orientation ∧
    (set_target_yaw y m).1.target_pose.position = m.target_pose.position ∧
    orientation_to_yaw (set_target_yaw y m).1.target_pose.orientation = y ∧
    (set_target_pose pose m).1.target_pose = pose ∧
    (set_target_pose pose m).1.current_pose = m.current_pose ∧
    (set_target_pose pose m).1.current_velocity = m.current_velocity ∧
    (set_target_pose pose m).1.UAV_state = m.UAV_state ∧
    (set_target_pose pose m).1.last_request = m.last_request ∧
    (set_target_pose pose m).1.max_speed = m.max_speed ∧
    (set_target_pose pose m).1.fly = m.fly ∧
    (set_target_pos p m).1.current_pose = m.current_pose ∧
    (set_target_pos p m).1.current_velocity = m.current_velocity ∧
    (set_target_pos p m).1.UAV_state = m.UAV_state ∧
    (set_target_pos p m).1.last_request = m.last_request ∧
    (set_target_pos p m).1.max_speed = m.max_speed ∧
    (set_target_pos p m).1.fly = m.fly ∧
    (set_target_yaw y m).1.current_pose = m.current_pose ∧
    (set_target_yaw y m).1.current_velocity = m.current_velocity ∧
    (set_target_yaw y m).1.UAV_state = m.UAV_state ∧
    (set_target_yaw y m).1.last_request = m.last_request ∧
    (set_target_yaw y m).1.max_speed = m.max_speed ∧
    (set_target_yaw y m).1.fly = m.fly ∧
    (set_target_pose pose m).2 = [] ∧
    (set_target_pos p m).2 = [] ∧
    (set_target_yaw y m).2 = [] :=
  ⟨rfl, rfl, rfl, rfl, rfl, rfl, rfl, rfl, rfl, rfl, rfl, rfl, rfl, rfl, rfl,
   rfl, rfl, rfl, rfl, rfl, rfl, rfl, rfl, rfl, rfl, rfl⟩

/-! Facts about the setpoint limiter (claim C1). -/

/-- The numpy conversions round-trip losslessly. -/
theorem point_to_arr_arr_to_point (v : Vec3) : point_to_arr (arr_to_point v) = v :=
  rfl

/-- Unfolding of `distance_limited_target` with its local variables
substituted. -/
theorem distance_limited_target_eq (m : Mav) :
    distance_limited_target m =
      if npNorm (point_to_arr m.target_pose.position -
          point_to_arr m.current_pose.position) < m.max_speed then
        m.target_pose
      else
        create_setpoint_message_pos_ori
          (arr_to_point (point_to_arr m.current_pose.position +
            vdiv (point_to_arr m.target_pose.position -
                point_to_arr m.current_pose.position)
              (npNorm (point_to_arr m.target_pose.position -
                  point_to_arr m.current_pose.position) / m.max_speed)))
          m.target_pose.orientation :=
  rfl

/-- Componentwise division by `d / c` is scaling by `c / d`. -/
theorem vdiv_div_eq_smul (v : Vec3) (d c : ℝ) : vdiv v (d / c) = (c / d) • v := by
  unfold vdiv
  simp only [Prod.ext_iff, Prod.smul_fst, Prod.smul_snd, smul_eq_mul,
    div_div_eq_mul_div]
  refine ⟨by ring, by ring, by ring⟩

/-- Componentwise division is scaling by the inverse. -/
theorem vdiv_eq_inv_smul (v : Vec3) (s : ℝ) : vdiv v s = s⁻¹ • v := by
  unfold vdiv
  simp only [Prod.ext_iff, Prod.smul_fst, Prod.smul_snd, smul_eq_mul]
  refine ⟨by ring, by ring, by ring⟩

/-- The numpy norm scales by the absolute value of the scalar. -/
theorem npNorm_smul (c : ℝ) (v : Vec3) : npNorm (c • v) = |c| * npNorm v := by
  unfold npNorm
  have h : (c • v).1 * (c • v).1 + (c • v).2.1 * (c • v).2.1 +
        (c • v).2.2 * (c • v).2.2
      = c ^ 2 * (v.1 * v.1 + v.2.1 * v.2.1 + v.2.2 * v.2.2) := by
    simp only [Prod.smul_fst, Prod.smul_snd, smul_eq_mul]
    ring
  rw [h, Real.sqrt_mul (sq_nonneg c), Real.sqrt_sq_eq_abs]

/-- Claim C1: the setpoint limiter returns the target pose unchanged whenever
the distance to the target is below `max_speed` (the `dist = 0` case
included); otherwise it keeps the full target orientation and moves the
position from the current position by `diff * (max_speed / dist)`, a
displacement of magnitude exactly `max_speed` in the direction of the
normalized `target - current` vector. -/
theorem C1_distance_limited_target_correct (m : Mav) (hpos : 0 < m.max_speed) :
    (npNorm (point_to_arr m.target_pose.position -
        point_to_arr m.current_pose.position) < m.max_speed →
      distance_limited_target m = m.target_pose) ∧
    (m.max_speed ≤ npNorm (point_to_arr m.target_pose.position -
        point_to_arr m.current_pose.position) →
      (distance_limited_target m).orientation = m.target_pose.orientation ∧
      point_to_arr (distance_limited_target m).position
        = point_to_arr m.current_pose.position
          + (m.max_speed / npNorm (point_to_arr m.target_pose.position -
              point_to_arr m.current_pose.position))
            • (point_to_arr m.target_pose.position -
                point_to_arr m.current_pose.position) ∧
      npNorm (point_to_arr (distance_limited_target m).position
          - point_to_arr m.current_pose.position) = m.max_speed ∧
      point_to_arr (distance_limited_target m).position
          - point_to_arr m.current_pose.position
        = m.max_speed •
            vdiv (point_to_arr m.target_pose.position -
                point_to_arr m.current_pose.position)
              (npNorm (point_to_arr m.target_pose.position -
                  point_to_arr m.current_pose.position))) := by
  rw [distance_limited_target_eq]
  constructor
  · intro h
    rw [if_pos h]
  · intro h
    have hdpos : (0 : ℝ) < npNorm (point_to_arr m.target_pose.position -
        point_to_arr m.current_pose.position) := lt_of_lt_of_le hpos h
    have hdne : npNorm (point_to_arr m.target_pose.position -
        point_to_arr m.current_pose.position) ≠ 0 := ne_of_gt hdpos
    rw [if_neg (not_lt.mpr h)]
    simp only [create_setpoint_message_pos_ori]
    refine ⟨trivial, ?_, ?_, ?_⟩
    · rw [point_to_arr_arr_to_point, vdiv_div_eq_smul]
    · rw [point_to_arr_arr_to_point, vdiv_div_eq_smul, add_sub_cancel_left,
        npNorm_smul,
        abs_of_pos (div_pos hpos hdpos),
        div_mul_cancel₀ _ hdne]
    · rw [point_to_arr_arr_to_point, vdiv_div_eq_smul, add_sub_cancel_left,
        vdiv_eq_inv_smul, smul_smul, div_eq_mul_inv]

/-- Witness for C1: in the freshly initialized state the target coincides
with the current position (`dist = 0 < max_speed = 1`), and the limiter
returns the target pose unchanged. -/
theorem C1_witness : distance_limited_target mav0 = mav0.target_pose :=
  (C1_distance_limited_target_correct mav0 (by norm_num [mav0, Mav.init])).1
    (by norm_num [mav0, Mav.init, npNorm, point_to_arr, PoseStamped.zero,
      Prod.mk_sub_mk, Real.sqrt_zero])

/-! Spec-side formulations of the arrival thresholds (§4.3), written from the
spec's words, to be compared with the source's `has_arrived`. -/

/-- Euclidean distance between two points, as the spec words it ("position
error is Euclidean distance between target and current position"). -/
noncomputable def euclideanDistance (p q : Point) : ℝ :=
  Real.sqrt ((p.x - q.x) * (p.x - q.x) + (p.y - q.y) * (p.y - q.y) +
    (p.z - q.z) * (p.z - q.z))

/-- Euclidean norm of a velocity vector, as the spec words it. -/
noncomputable def vectorNorm (v : Vector3) : ℝ :=
  Real.sqrt (v.x * v.x + v.y * v.y + v.z * v.z)

/-- Claim C2: `has_arrived` holds exactly when all four conditions hold
simultaneously — Euclidean position error below 0.5 m, absolute yaw
difference below 0.1 rad, linear speed below 0.2 m/s and angular speed below
0.05 rad/s. -/
theorem C2_has_arrived_iff (m : Mav) :
    has_arrived m ↔
      (euclideanDistance m.target_pose.position m.current_pose.position < 0.5 ∧
       |orientation_to_yaw m.target_pose.orientation -
         orientation_to_yaw m.current_pose.orientation| < 0.1 ∧
       vectorNorm m.current_velocity.linear < 0.2 ∧
       vectorNorm m.current_velocity.angular < 0.05) := by
  have hd : get_pos_error m
      = euclideanDistance m.target_pose.position m.current_pose.position := rfl
  have hy : get_yaw_error m
      = |orientation_to_yaw m.target_pose.orientation -
          orientation_to_yaw m.current_pose.orientation| := rfl
  have hv : get_velocity_abs m = vectorNorm m.current_velocity.linear := rfl
  have ha : get_ang_vel_abs m = vectorNorm m.current_velocity.angular := rfl
  unfold has_arrived
  dsimp only
  rw [hd, hy, hv, ha]
  by_cases h :
      euclideanDistance m.target_pose.position m.current_pose.position < 0.5 ∧
      |orientation_to_yaw m.target_pose.orientation -
        orientation_to_yaw m.current_pose.orientation| < 0.1 ∧
      vectorNorm m.current_velocity.linear < 0.2 ∧
      vectorNorm m.current_velocity.angular < 0.05
  · simp [h]
  · simp [h]

/-- Claim C10: `deploy_parachute` issues exactly the single command-channel
call with command code 185 and `param1 = 1`, and returns the controller state
unchanged. -/
theorem C10_deploy_parachute_effect (m : Mav) :
    (deploy_parachute m).2 = [Request.command 185 1] ∧
    (deploy_parachute m).1 = m :=
  ⟨rfl, rfl⟩

end DroneMav
